import Mathlib

/-!
Verification development for the `macroni` macro tracker (src/main.rs).

The program is a single-threaded terminal UI: a catalog loader
(`load_foods` / `impl FromStr for Food`), a running nutrient total
(`Macros`, `impl AddAssign<Food> for Macros`, `impl Mul<f64> for Food`),
a seven-slot text-entry form (`Tui::food_form`) and the dispatch loop of
`main`. This file embeds those parts shallowly:

* Rust `f64` values are modelled as exact rationals (`ℚ`). The numeric
  strings handled in the claims are small decimal literals, on which `f64`
  parsing and the program's additions and multiplications are exact, so
  the rational model agrees with the binary one there. Non-finite
  literals (inf, nan) and rounding of long decimals are outside the model.
* `u16` counters are modelled as `ℕ` reduced mod 2^16 where the code's
  wrapping arithmetic matters (release-build semantics of `*right -= 1`;
  a debug build panics on the same underflow).
* Terminal drawing, the `foods` file read and raw-mode switching are I/O
  and are not modelled; only their effect on the program state
  (`Tui::render_main` setting `state`, `Tui::resize` setting the
  dimensions) is kept. `load_foods` takes the file's text directly.
* The `[String; 7]` buffer array is a `List String` of length 7; the
  in-range indexing of the Rust array corresponds to the `field < 7`
  invariant proved below.
-/

/-- Digits accumulated to a natural number, most significant first. -/
def natOfDigits (ds : List ℕ) : ℕ := ds.foldl (fun a d => 10 * a + d) 0

/-- Longest leading run of decimal digits of a character list, paired with
the rest. -/
def takeDigits : List Char → List ℕ × List Char
  | [] => ([], [])
  | c :: rest =>
    if c.isDigit then
      let p := takeDigits rest
      ((c.toNat - 48) :: p.1, p.2)
    else ([], c :: rest)

/-- Value of a parsed decimal literal: sign, integer digits and fraction
digits, as an exact rational. -/
def decValue (sg : ℤ) (ip fp : List ℕ) : ℚ :=
  ((sg * natOfDigits (ip ++ fp) : ℤ) : ℚ) / (10 : ℚ) ^ fp.length

/-- Model of Rust `str::parse::<f64>` on fields and form buffers: an
optional sign, then digits with an optional fraction part (at least one
digit overall), then an optional exponent with a mandatory digit run.
Values are exact rationals; the non-finite literals accepted by Rust
(inf, infinity, nan) are outside the rational carrier and rejected here,
and no claim involves them. -/
def parseF64 (s : String) : Option ℚ :=
  let p1 :=
    match s.data with
    | '+' :: r => ((1 : ℤ), r)
    | '-' :: r => ((-1 : ℤ), r)
    | r => ((1 : ℤ), r)
  let p2 := takeDigits p1.2
  let p3 :=
    match p2.2 with
    | '.' :: r => takeDigits r
    | r => ([], r)
  if p2.1.isEmpty ∧ p3.1.isEmpty then none
  else
    match p3.2 with
    | [] => some (decValue p1.1 p2.1 p3.1)
    | c :: r =>
      if c = 'e' ∨ c = 'E' then
        let p4 :=
          match r with
          | '+' :: r2 => ((1 : ℤ), r2)
          | '-' :: r2 => ((-1 : ℤ), r2)
          | r2 => ((1 : ℤ), r2)
        let p5 := takeDigits p4.2
        if p5.1.isEmpty ∨ ¬ p5.2.isEmpty then none
        else some (decValue p1.1 p2.1 p3.1 * (10 : ℚ) ^ (p4.1 * (natOfDigits p5.1 : ℤ)))
      else none

/-- Split a character list at every occurrence of `sep`, keeping empty
pieces: the model of Rust `str::split(sep)`, which yields n+1 pieces for
n separators. -/
def splitOnChar (sep : Char) : List Char → List (List Char)
  | [] => [[]]
  | c :: rest =>
    let r := splitOnChar sep rest
    if c = sep then [] :: r
    else
      match r with
      | [] => [[c]]
      | h :: t => (c :: h) :: t

/-- The tab-separated fields of a line, as strings: the
`s.split('\t').collect()` of `Food::from_str` and the field split the
spec describes. -/
def tabFields (line : String) : List String :=
  (splitOnChar '\t' line.data).map (fun cs => (⟨cs⟩ : String))

/-- Remove one trailing carriage return, as Rust `str::lines` does on
lines terminated by a newline. -/
def dropTrailingCR (cs : List Char) : List Char :=
  if cs.getLast? = some '\r' then cs.dropLast else cs

/-- Model of Rust `str::lines`: split at newlines, strip the carriage
return of a `\r\n` ending, and produce no final empty line for text
ending in a newline. -/
def rustLines (s : String) : List String :=
  let parts := splitOnChar '\n' s.data
  let body :=
    parts.dropLast.map dropTrailingCR ++
      (match parts.getLast? with
       | some t => if t = [] then [] else [t]
       | none => [])
  body.map (fun cs => (⟨cs⟩ : String))

/-- Model of Rust `String::pop`: drop the last character; no-op on the
empty string. -/
def rustPop (s : String) : String := ⟨s.data.dropLast⟩

/-- The `Food` record of main.rs lines 20-27: name, four nutrient values
per declared unit, and the unit label. -/
structure Food where
  name : String
  calories : ℚ
  carbs : ℚ
  fat : ℚ
  protein : ℚ
  unit : String
deriving DecidableEq

/-- The running totals `Macros` of main.rs lines 122-128. -/
structure Macros where
  calories : ℚ
  carbs : ℚ
  fat : ℚ
  protein : ℚ
deriving DecidableEq

/-- The `impl FromStr for Food` of main.rs lines 29-46: exactly six
tab-separated fields, with fields 1-4 parsed as numbers in the order
calories, carbs, fat, protein. -/
def Food.from_str (s : String) : Option Food :=
  let fields := tabFields s
  if fields.length ≠ 6 then none
  else
    match parseF64 (fields.getD 1 ("")), parseF64 (fields.getD 2 ("")),
        parseF64 (fields.getD 3 ("")), parseF64 (fields.getD 4 ("")) with
    | some cal, some car, some fa, some pro =>
      some { name := fields.getD 0 (""), calories := cal, carbs := car,
             fat := fa, protein := pro, unit := fields.getD 5 ("") }
    | _, _, _, _ => none

/-- The per-line closure of `load_foods` (main.rs lines 95-100): skip
lines starting with `#`, otherwise keep a successful parse and drop a
failed one. -/
def lineFood (line : String) : Option Food :=
  if line.data.head? = some '#' then none else Food.from_str line

/-- The catalog loader `load_foods` of main.rs lines 91-103, taking the
text of the file (the `read_to_string` I/O is outside the model; its
failure aborts the program before any state exists). -/
def load_foods (content : String) : List Food :=
  (rustLines content).filterMap lineFood

/-- The `FoodQuantity` pair of main.rs line 48. -/
structure FoodQuantity where
  food : Food
  qty : ℚ
deriving DecidableEq

/-- The `impl TryFrom<&[String; 7]> for FoodQuantity` of main.rs lines
50-66: slot 0 is the name, slots 1-4 are parsed as calories, carbs, fat,
protein in that order, slot 5 is the unit and slot 6 the quantity; any
failed parse fails the whole conversion. -/
def FoodQuantity.try_from (value : List String) : Option FoodQuantity :=
  match parseF64 (value.getD 1 ("")), parseF64 (value.getD 2 ("")),
      parseF64 (value.getD 3 ("")), parseF64 (value.getD 4 ("")),
      parseF64 (value.getD 6 ("")) with
  | some cal, some car, some fa, some pro, some n =>
    some { food := { name := value.getD 0 (""), calories := cal, carbs := car,
                     fat := fa, protein := pro, unit := value.getD 5 ("") },
           qty := n }
  | _, _, _, _, _ => none

/-- The `impl AddAssign<Food> for Macros` of main.rs lines 68-75. -/
def Macros.add_assign (m : Macros) (rhs : Food) : Macros :=
  { calories := m.calories + rhs.calories, protein := m.protein + rhs.protein,
    carbs := m.carbs + rhs.carbs, fat := m.fat + rhs.fat }

/-- The `impl Mul<f64> for Food` of main.rs lines 77-89: scale the four
nutrient fields, keep name and unit. -/
def Food.mul (f : Food) (rhs : ℚ) : Food :=
  { f with calories := f.calories * rhs, carbs := f.carbs * rhs,
           fat := f.fat * rhs, protein := f.protein * rhs }

/-- The view state `State` of main.rs lines 131-134. -/
inductive State where
  | Main
  | AddFood
deriving DecidableEq

/-- `State::is_add_food` of main.rs lines 141-143. -/
def State.is_add_food : State → Bool
  | State.AddFood => true
  | State.Main => false

/-- The pure state of `Tui` (main.rs lines 147-155): terminal dimensions,
loaded catalog, running totals, the seven form buffers and the view
state. The writer `w` is terminal I/O and is not modelled. -/
structure Tui where
  cols : ℕ
  rows : ℕ
  foods : List Food
  today : Macros
  buf : List String
  state : State
deriving DecidableEq

/-- `Tui::resize` of main.rs lines 198-201. -/
def Tui.resize (t : Tui) (w h : ℕ) : Tui := { t with cols := w, rows := h }

/-- The state effect of `Tui::render_main` (main.rs lines 283-290): the
view becomes `Main`; the clearing, border, help line and totals line it
draws are terminal output, and it touches no other field. -/
def Tui.render_main (t : Tui) : Tui := { t with state := State.Main }

/-- The state effect of `Tui::add_food` (main.rs lines 292-357): the view
becomes `AddFood`; the form it draws is terminal output. It does not
touch `buf`, so previously typed text stays buffered. -/
def Tui.add_food (t : Tui) : Tui := { t with state := State.AddFood }

/-- The state owned by `main`'s loop (main.rs lines 430-431) together
with the `Tui`: the cursor offset `right` and the active field index
`field`, both `u16`. -/
structure LoopSt where
  tui : Tui
  right : ℕ
  field : ℕ
deriving DecidableEq

/-- The key codes `Tui::food_form` distinguishes (crossterm `KeyCode`):
printable characters, Backspace, Tab, Shift+Tab, Enter; `Esc` and every
other code fall to the catch-all arm. -/
inductive KeyCode where
  | Char (c : Char)
  | Backspace
  | Tab
  | BackTab
  | Enter
  | Esc
  | other
deriving DecidableEq

/-- Reduction mod 2^16, the value set of a wrapping `u16`. -/
def u16wrap (n : ℕ) : ℕ := n % 65536

/-- `Tui::food_form` of main.rs lines 359-414. A character is appended to
the active buffer and `right` incremented; Backspace pops the buffer and
decrements `right` unconditionally (`*right -= 1`: wrapping here is the
release-build semantics, a debug build panics at `right = 0`); Tab and
BackTab move the field index under their boundary guards and reset
`right` to 0; Enter converts the buffers through `FoodQuantity::try_from`,
on success adds the scaled food into `today`, and either way calls
`render_main`; every other key (including Esc) does nothing. The echo,
cursor motion and flush calls are terminal output. -/
def food_form (s : LoopSt) (code : KeyCode) : LoopSt :=
  match code with
  | KeyCode.Char c =>
    { s with
      tui := { s.tui with
               buf := s.tui.buf.set s.field ((s.tui.buf.getD s.field ("")).push c) },
      right := u16wrap (s.right + 1) }
  | KeyCode.Backspace =>
    { s with
      tui := { s.tui with
               buf := s.tui.buf.set s.field (rustPop (s.tui.buf.getD s.field (""))) },
      right := u16wrap (s.right + 65535) }
  | KeyCode.Tab =>
    if s.field < s.tui.buf.length - 1 then
      { s with field := s.field + 1, right := 0 }
    else s
  | KeyCode.BackTab =>
    if 0 < s.field then
      { s with field := s.field - 1, right := 0 }
    else s
  | KeyCode.Enter =>
    let t :=
      match FoodQuantity.try_from s.tui.buf with
      | some fq => { s.tui with today := s.tui.today.add_assign (fq.food.mul fq.qty) }
      | none => s.tui
    { s with tui := t.render_main }
  | KeyCode.Esc => s
  | KeyCode.other => s

/-- The terminal events `main`'s loop dispatches on: key events, resize
events, and the observed-but-ignored rest (focus, paste, mouse). -/
inductive Event where
  | Key (code : KeyCode)
  | Resize (w h : ℕ)
  | other
deriving DecidableEq

/-- One iteration of `main`'s event loop (main.rs lines 432-448), in the
source's guard order: key events go to `food_form` whenever the state is
`AddFood`; otherwise `q` breaks the loop (teardown changes no modelled
state) and `a` calls `add_food`; a resize updates the dimensions and then
unconditionally calls `render_main`; other events do nothing. -/
def step (s : LoopSt) (e : Event) : LoopSt :=
  match e with
  | Event.Key code =>
    if s.tui.state.is_add_food then food_form s code
    else if code = KeyCode.Char 'q' then s
    else if code = KeyCode.Char 'a' then { s with tui := s.tui.add_food }
    else s
  | Event.Resize w h => { s with tui := (s.tui.resize w h).render_main }
  | Event.other => s

/-- Spec-side well-formedness of a catalog line, following the spec's
words for C7: not a `#` comment, exactly 6 tab-separated fields, and the
four numeric fields (calories, carbs, fat, protein) parse as numbers. -/
def specWellFormed (line : String) : Bool :=
  let fields := tabFields line
  decide (¬ line.data.head? = some '#') && (fields.length == 6) &&
    (parseF64 (fields.getD 1 (""))).isSome && (parseF64 (fields.getD 2 (""))).isSome &&
    (parseF64 (fields.getD 3 (""))).isSome && (parseF64 (fields.getD 4 (""))).isSome

/-- Spec-side record of a well-formed catalog line, following the spec's
field order name, calories, carbs, fat, protein, unit. -/
def specRecord (line : String) : Food :=
  let fields := tabFields line
  { name := fields.getD 0 ("")
    calories := (parseF64 (fields.getD 1 (""))).getD 0
    carbs := (parseF64 (fields.getD 2 (""))).getD 0
    fat := (parseF64 (fields.getD 3 (""))).getD 0
    protein := (parseF64 (fields.getD 4 (""))).getD 0
    unit := fields.getD 5 ("") }

/-- Hypothesis of the amended C5: whenever the seven buffers convert
successfully, every nutrient field of the parsed food scaled by the
parsed quantity is non-negative. -/
def submit_nonneg (buf : List String) : Bool :=
  match FoodQuantity.try_from buf with
  | none => true
  | some fq =>
    decide (0 ≤ fq.food.calories * fq.qty) && decide (0 ≤ fq.food.carbs * fq.qty) &&
      decide (0 ≤ fq.food.fat * fq.qty) && decide (0 ≤ fq.food.protein * fq.qty)

/-- Seven empty form buffers, the `buf: [S; 7]` of `Tui::new`. -/
def emptyBuf : List String := ["", "", "", "", "", "", ""]

/-- A `Tui` in the form view holding the given buffers, with zero totals:
the state right after entering the form (catalog content is irrelevant to
the form claims and left empty). -/
def formTui (buf : List String) : Tui :=
  { cols := 80, rows := 24, foods := [], buf := buf, state := State.AddFood,
    today := { calories := 0, carbs := 0, fat := 0, protein := 0 } }

/-- A loop state in the form view with cursor offset 0 and field 0. -/
def formSt (buf : List String) : LoopSt := { tui := formTui buf, right := 0, field := 0 }

/-- The C1 buffers, in the order of the on-screen labels: Food Name,
Calories, Protein, Carbs, Fat, Units, Quantity. -/
def c1buf : List String := ["Egg", "70", "6", "1", "5", "each", "2"]

/-- The C3 keystroke sequence: three characters into field 0, Tab, one
character into field 1, Shift+Tab. -/
def c3evs : List Event :=
  [Event.Key (KeyCode.Char 'E'), Event.Key (KeyCode.Char 'g'),
   Event.Key (KeyCode.Char 'g'), Event.Key KeyCode.Tab,
   Event.Key (KeyCode.Char 'x'), Event.Key KeyCode.BackTab]

/-- A form state with text already typed, used for the Escape claim. -/
def c4st : LoopSt := { tui := formTui c1buf, right := 1, field := 6 }

/-- The C5 counterexample buffers: a negative calories field, quantity 1. -/
def c5buf : List String := ["x", "-1", "0", "0", "0", "g", "1"]

/-- A form state at field 6 with the boundary Tab claim's counter. -/
def c8st6 : LoopSt := { tui := formTui emptyBuf, right := 0, field := 6 }

/-- A key sequence exercising Tab past the last field and Shift+Tab past
the first. -/
def c8evs : List Event :=
  [Event.Key KeyCode.BackTab, Event.Key KeyCode.Tab, Event.Key KeyCode.Tab,
   Event.Key KeyCode.Tab, Event.Key KeyCode.Tab, Event.Key KeyCode.Tab,
   Event.Key KeyCode.Tab, Event.Key KeyCode.Tab, Event.Key KeyCode.Tab]

/-- The C9 buffers: every field as in C1 but a non-numeric quantity. -/
def c9buf : List String := ["Egg", "70", "6", "1", "5", "each", "x"]

/-- Evaluation of the numeric parse on the digit strings the claims use. -/
theorem parseF64_eval_70 : parseF64 ("70") = some 70 := by
  rw [show parseF64 ("70") = some (decValue 1 [7, 0] []) from rfl]
  norm_num [decValue, natOfDigits]

/-- A key event reaching `food_form`: the first guard of `main`'s match
fires whenever the state is `AddFood`. -/
theorem step_key_addFood (s : LoopSt) (h : s.tui.state = State.AddFood)
    (code : KeyCode) : step s (Event.Key code) = food_form s code := by
  simp [step, h, State.is_add_food]

/-- No event changes the number of form buffers. -/
theorem step_buf_length (s : LoopSt) (e : Event) :
    (step s e).tui.buf.length = s.tui.buf.length := by
  cases e with
  | Key code =>
    by_cases hst : s.tui.state.is_add_food
    · cases code with
      | Char c => simp [step, hst, food_form]
      | Backspace => simp [step, hst, food_form]
      | Tab =>
        simp only [step, hst, if_true, food_form]
        split <;> rfl
      | BackTab =>
        simp only [step, hst, if_true, food_form]
        split <;> rfl
      | Enter =>
        simp only [step, hst, if_true, food_form]
        cases FoodQuantity.try_from s.tui.buf <;> simp [Tui.render_main]
      | Esc => simp [step, hst, food_form]
      | other => simp [step, hst, food_form]
    · simp only [step, hst, if_false, Bool.false_eq_true]
      split
      · rfl
      · split
        · simp [Tui.add_food]
        · rfl
  | Resize w h => simp [step, Tui.render_main, Tui.resize]
  | other => rfl

/-- No event moves the field index out of range while the buffer array
has its seven slots. -/
theorem step_field_lt (s : LoopSt) (e : Event) (hlen : s.tui.buf.length = 7)
    (h : s.field < 7) : (step s e).field < 7 := by
  cases e with
  | Key code =>
    by_cases hst : s.tui.state.is_add_food
    · cases code with
      | Char c => simpa [step, hst, food_form] using h
      | Backspace => simpa [step, hst, food_form] using h
      | Tab =>
        simp only [step, hst, if_true, food_form, hlen]
        split
        · simp only [LoopSt.field]
          omega
        · exact h
      | BackTab =>
        simp only [step, hst, if_true, food_form]
        split
        · simp only [LoopSt.field]
          omega
        · exact h
      | Enter =>
        simp only [step, hst, if_true, food_form]
        cases FoodQuantity.try_from s.tui.buf <;> simpa [Tui.render_main] using h
      | Esc => simpa [step, hst, food_form] using h
      | other => simpa [step, hst, food_form] using h
    · simp only [step, hst, if_false, Bool.false_eq_true]
      split
      · exact h
      · split
        · simpa [Tui.add_food] using h
        · exact h
  | Resize w hh => simpa [step, Tui.render_main, Tui.resize] using h
  | other => exact h

/-- C1: the claim expects Enter on buffers Egg, 70, 6, 1, 5, each, 2 (in
the on-screen label order name, calories, protein, carbs, fat, unit,
quantity) to add calories 140, carbs 2, fat 10, protein 12 and return to
Overview. The code does return to the main view, but `TryFrom` reads
slot 2 as carbs, slot 3 as fat and slot 4 as protein — the `Food`
declaration order, contradicting the labels `Tui::add_food` itself draws —
so it adds calories 140, carbs 12, fat 2, protein 10 instead. -/
theorem c1_submit_egg_adds_label_swapped_macros :
    (step (formSt c1buf) (Event.Key KeyCode.Enter)).tui.state = State.Main ∧
    (step (formSt c1buf) (Event.Key KeyCode.Enter)).tui.today =
      { calories := 140, carbs := 12, fat := 2, protein := 10 } ∧
    ¬ (step (formSt c1buf) (Event.Key KeyCode.Enter)).tui.today =
      { calories := 140, carbs := 2, fat := 10, protein := 12 } := by
  have h : (step (formSt c1buf) (Event.Key KeyCode.Enter)).tui.today =
      { calories := 0 + decValue 1 [7, 0] [] * decValue 1 [2] [],
        protein := 0 + decValue 1 [5] [] * decValue 1 [2] [],
        carbs := 0 + decValue 1 [6] [] * decValue 1 [2] [],
        fat := 0 + decValue 1 [1] [] * decValue 1 [2] [] } := rfl
  refine ⟨rfl, ?_, ?_⟩
  · rw [h]
    norm_num [decValue, natOfDigits, Macros.mk.injEq]
  · rw [h]
    norm_num [decValue, natOfDigits, Macros.mk.injEq]

/-- C2: with the active buffer empty and the counter at 0, Backspace pops
nothing from the buffer but still runs `*right -= 1`: the u16 counter
wraps to 65535 (release build; a debug build panics), instead of the
claimed no-op. -/
theorem c2_backspace_on_empty_buffer_underflows_counter :
    (step (formSt emptyBuf) (Event.Key KeyCode.Backspace)).tui.buf = emptyBuf ∧
    (step (formSt emptyBuf) (Event.Key KeyCode.Backspace)).right = 65535 ∧
    ¬ (step (formSt emptyBuf) (Event.Key KeyCode.Backspace)).right =
        (formSt emptyBuf).right := by decide

/-- C3: after typing three characters in field 0, Tab, one character in
field 1 and Shift+Tab, the active field is 0 again and its buffer holds 3
characters, but the counter was reset to 0 by the BackTab arm (`*right =
0`) instead of to the buffered length 3 the claim requires. -/
theorem c3_counter_not_restored_on_field_change :
    (List.foldl step (formSt emptyBuf) c3evs).field = 0 ∧
    ((List.foldl step (formSt emptyBuf) c3evs).tui.buf.getD 0 ("")).length = 3 ∧
    (List.foldl step (formSt emptyBuf) c3evs).right = 0 ∧
    ¬ (List.foldl step (formSt emptyBuf) c3evs).right =
        ((List.foldl step (formSt emptyBuf) c3evs).tui.buf.getD 0 ("")).length := by
  decide

/-- C4: Escape in the form view is dispatched to `food_form`, whose match
has no Esc arm: the state is returned unchanged, still in the form view,
instead of the claimed transition to Overview. (Nothing is added to the
totals, as the claim also says.) -/
theorem c4_escape_is_ignored_in_form :
    step c4st (Event.Key KeyCode.Esc) = c4st ∧
    (step c4st (Event.Key KeyCode.Esc)).tui.state = State.AddFood ∧
    ¬ (step c4st (Event.Key KeyCode.Esc)).tui.state = State.Main := by
  refine ⟨rfl, rfl, ?_⟩
  decide

/-- C6: a resize while the form is on screen does update the dimensions,
but `main`'s Resize arm calls `render_main` unconditionally (its TODO
notes that what to render should depend on the state): the Overview is
drawn and the view state flips to Main instead of staying FormEntry. -/
theorem c6_resize_during_form_renders_overview :
    (step c4st (Event.Resize 100 40)).tui.cols = 100 ∧
    (step c4st (Event.Resize 100 40)).tui.rows = 40 ∧
    (step c4st (Event.Resize 100 40)).tui.state = State.Main ∧
    ¬ (step c4st (Event.Resize 100 40)).tui.state = c4st.tui.state := by decide

/-- C5 counterexample: nothing stops a form submission from carrying a
negative number. Submitting calories "-1" with quantity "1" decreases the
calories total, so the totals are not monotonically non-decreasing over
every handled event. -/
theorem c5_negative_submission_decreases_calories :
    (step (formSt c5buf) (Event.Key KeyCode.Enter)).tui.today.calories <
      (formSt c5buf).tui.today.calories := by
  have h : (step (formSt c5buf) (Event.Key KeyCode.Enter)).tui.today =
      { calories := 0 + decValue (-1) [1] [] * decValue 1 [1] [],
        protein := 0 + decValue 1 [0] [] * decValue 1 [1] [],
        carbs := 0 + decValue 1 [0] [] * decValue 1 [1] [],
        fat := 0 + decValue 1 [0] [] * decValue 1 [1] [] } := rfl
  have h0 : (formSt c5buf).tui.today.calories = 0 := rfl
  rw [h, h0]
  norm_num [decValue, natOfDigits]

/-- C5 amended: each of the four MacroTotals components is non-decreasing
across every handled event, provided that whenever the seven buffers
convert successfully the parsed food's nutrient fields scaled by the
parsed quantity are all non-negative (as they are for every non-negative
submission, and vacuously for every other event). -/
theorem c5_totals_monotone_for_nonneg_submissions (s : LoopSt) (e : Event)
    (h : submit_nonneg s.tui.buf = true) :
    s.tui.today.calories ≤ (step s e).tui.today.calories ∧
    s.tui.today.carbs ≤ (step s e).tui.today.carbs ∧
    s.tui.today.fat ≤ (step s e).tui.today.fat ∧
    s.tui.today.protein ≤ (step s e).tui.today.protein := by
  cases e with
  | Key code =>
    by_cases hst : s.tui.state.is_add_food
    · cases code with
      | Char c => simp [step, hst, food_form]
      | Backspace => simp [step, hst, food_form]
      | Tab =>
        simp only [step, hst, if_true, food_form]
        split <;> simp
      | BackTab =>
        simp only [step, hst, if_true, food_form]
        split <;> simp
      | Enter =>
        simp only [step, hst, if_true, food_form]
        cases htf : FoodQuantity.try_from s.tui.buf with
        | none => simp [Tui.render_main]
        | some fq =>
          unfold submit_nonneg at h
          rw [htf] at h
          simp only [Bool.and_eq_true, decide_eq_true_eq] at h
          obtain ⟨⟨⟨h1, h2⟩, h3⟩, h4⟩ := h
          simp only [Tui.render_main, Macros.add_assign, Food.mul]
          exact ⟨le_add_of_nonneg_right h1, le_add_of_nonneg_right h2,
            le_add_of_nonneg_right h3, le_add_of_nonneg_right h4⟩
      | Esc => simp [step, hst, food_form]
      | other => simp [step, hst, food_form]
    · simp only [step, hst, if_false, Bool.false_eq_true]
      split
      · simp
      · split
        · simp [Tui.add_food]
        · simp
  | Resize w hh => simp [step, Tui.render_main, Tui.resize]
  | other => simp [step]

/-- C5 amended, witnessed at the Egg submission of the spec's own
example: its parsed values are non-negative and Enter leaves every total
component at least as large as before. -/
theorem c5_totals_monotone_witness :
    submit_nonneg (formSt c1buf).tui.buf = true ∧
    ((formSt c1buf).tui.today.calories ≤
        (step (formSt c1buf) (Event.Key KeyCode.Enter)).tui.today.calories ∧
      (formSt c1buf).tui.today.carbs ≤
        (step (formSt c1buf) (Event.Key KeyCode.Enter)).tui.today.carbs ∧
      (formSt c1buf).tui.today.fat ≤
        (step (formSt c1buf) (Event.Key KeyCode.Enter)).tui.today.fat ∧
      (formSt c1buf).tui.today.protein ≤
        (step (formSt c1buf) (Event.Key KeyCode.Enter)).tui.today.protein) := by
  have hnn : submit_nonneg (formSt c1buf).tui.buf = true := by
    rw [show submit_nonneg (formSt c1buf).tui.buf =
        (decide (0 ≤ decValue 1 [7, 0] [] * decValue 1 [2] []) &&
          decide (0 ≤ decValue 1 [6] [] * decValue 1 [2] []) &&
          decide (0 ≤ decValue 1 [1] [] * decValue 1 [2] []) &&
          decide (0 ≤ decValue 1 [5] [] * decValue 1 [2] [])) from rfl]
    simp only [Bool.and_eq_true, decide_eq_true_eq]
    refine ⟨⟨⟨?_, ?_⟩, ?_⟩, ?_⟩ <;> norm_num [decValue, natOfDigits]
  exact ⟨hnn, c5_totals_monotone_for_nonneg_submissions (formSt c1buf)
    (Event.Key KeyCode.Enter) hnn⟩

/-- Per-line behaviour of the loader: a line is kept, with the record
read off its fields, exactly when it is well-formed in the spec's sense
(not a comment, six tab-separated fields, four numeric fields parse). -/
theorem lineFood_spec (line : String) :
    lineFood line = if specWellFormed line then some (specRecord line) else none := by
  unfold lineFood Food.from_str specWellFormed specRecord
  by_cases hh : line.data.head? = some '#'
  · simp [hh]
  · by_cases hl : (tabFields line).length = 6
    · have hlT : ((tabFields line).length ≠ 6) = False := by simp [hl]
      have hlB : ((tabFields line).length == 6) = true := by simp [hl]
      cases h1 : parseF64 ((tabFields line)[1]?.getD ("")) with
      | none => simp [hh, hlT, hlB, h1]
      | some v1 =>
        cases h2 : parseF64 ((tabFields line)[2]?.getD ("")) with
        | none => simp [hh, hlT, hlB, h1, h2]
        | some v2 =>
          cases h3 : parseF64 ((tabFields line)[3]?.getD ("")) with
          | none => simp [hh, hlT, hlB, h1, h2, h3]
          | some v3 =>
            cases h4 : parseF64 ((tabFields line)[4]?.getD ("")) with
            | none => simp [hh, hlT, hlB, h1, h2, h3, h4]
            | some v4 => simp [hh, hlT, hlB, h1, h2, h3, h4]
    · have hlT : ((tabFields line).length ≠ 6) = True := by simp [hl]
      have hlB : ((tabFields line).length == 6) = false := by simp [hl]
      simp [hh, hlT, hlB]

/-- C7: for every catalog text, loading yields exactly the records of the
well-formed lines — those that are not `#` comments, split into exactly 6
tab-separated fields and whose four numeric fields parse — one record per
such line, in file order; comment lines and malformed lines contribute
nothing and do not stop the scan. -/
theorem c7_load_foods_keeps_exactly_the_wellformed_lines (text : String) :
    load_foods text = ((rustLines text).filter specWellFormed).map specRecord := by
  unfold load_foods
  induction rustLines text with
  | nil => rfl
  | cons hd tl ih =>
    rw [List.filterMap_cons, List.filter_cons, lineFood_spec hd]
    by_cases hw : specWellFormed hd = true
    · simp [hw, ih]
    · simp [hw, ih]

/-- C8: over every event sequence the active field index stays in [0,7)
(given the seven-slot buffer array), and at the boundaries the arms are
guarded no-ops: Tab at field 6 and Shift+Tab at field 0 return the state
unchanged — index, counter and all — never wrapping. -/
theorem c8_field_index_never_leaves_range :
    (∀ (evs : List Event) (s : LoopSt), s.tui.buf.length = 7 → s.field < 7 →
        (List.foldl step s evs).field < 7) ∧
    (∀ s : LoopSt, s.tui.buf.length = 7 → s.field = 6 →
        step s (Event.Key KeyCode.Tab) = s) ∧
    (∀ s : LoopSt, s.field = 0 → step s (Event.Key KeyCode.BackTab) = s) := by
  refine ⟨?_, ?_, ?_⟩
  · intro evs
    induction evs with
    | nil => intro s _ h; exact h
    | cons e tl ih =>
      intro s hlen h
      rw [List.foldl_cons]
      exact ih (step s e) ((step_buf_length s e).trans hlen) (step_field_lt s e hlen h)
  · intro s hlen hf
    by_cases hst : s.tui.state.is_add_food
    · simp [step, hst, food_form, hlen, hf]
    · simp [step, hst]
  · intro s hf
    by_cases hst : s.tui.state.is_add_food
    · simp [step, hst, food_form, hf]
    · simp [step, hst]

/-- C8 witness: Tab at field 6 with the seven empty buffers is the
identity, and a nine-keystroke Tab/Shift+Tab sequence from field 0 keeps
the index under 7. -/
theorem c8_field_index_witness :
    step c8st6 (Event.Key KeyCode.Tab) = c8st6 ∧
    (List.foldl step (formSt emptyBuf) c8evs).field < 7 :=
  ⟨c8_field_index_never_leaves_range.2.1 c8st6 rfl rfl,
   c8_field_index_never_leaves_range.1 c8evs (formSt emptyBuf) rfl (by decide)⟩

/-- C9: whenever the seven buffers fail to convert (any of the five
parsed slots non-numeric), Enter adds nothing to the totals — the failed
submission is atomic and silent — and the view still transitions to the
main (Overview) screen. The buffers are also untouched. -/
theorem c9_failed_submission_is_atomic (s : LoopSt)
    (h1 : s.tui.state = State.AddFood)
    (h2 : FoodQuantity.try_from s.tui.buf = none) :
    (step s (Event.Key KeyCode.Enter)).tui.today = s.tui.today ∧
    (step s (Event.Key KeyCode.Enter)).tui.state = State.Main ∧
    (step s (Event.Key KeyCode.Enter)).tui.buf = s.tui.buf := by
  rw [step_key_addFood s h1]
  simp [food_form, h2, Tui.render_main]

/-- C9 witness: the Egg form with quantity "x" fails to parse, leaves the
totals untouched and lands on the main screen. -/
theorem c9_failed_submission_witness :
    (formSt c9buf).tui.state = State.AddFood ∧
    FoodQuantity.try_from (formSt c9buf).tui.buf = none ∧
    ((step (formSt c9buf) (Event.Key KeyCode.Enter)).tui.today = (formSt c9buf).tui.today ∧
      (step (formSt c9buf) (Event.Key KeyCode.Enter)).tui.state = State.Main ∧
      (step (formSt c9buf) (Event.Key KeyCode.Enter)).tui.buf = (formSt c9buf).tui.buf) :=
  ⟨rfl, by decide, c9_failed_submission_is_atomic (formSt c9buf) rfl (by decide)⟩

/-- C10: Enter never touches the seven buffers (whether or not the
conversion succeeds), and pressing the character a afterwards re-enters
the form through `Tui::add_food`, which also leaves `buf` alone: the form
re-opens with all previously typed text still buffered. -/
theorem c10_buffers_survive_submit_and_reentry (s : LoopSt)
    (h : s.tui.state = State.AddFood) :
    (step s (Event.Key KeyCode.Enter)).tui.buf = s.tui.buf ∧
    (step (step s (Event.Key KeyCode.Enter))
        (Event.Key (KeyCode.Char 'a'))).tui.buf = s.tui.buf ∧
    (step (step s (Event.Key KeyCode.Enter))
        (Event.Key (KeyCode.Char 'a'))).tui.state = State.AddFood := by
  have hb : (step s (Event.Key KeyCode.Enter)).tui.buf = s.tui.buf := by
    rw [step_key_addFood s h]
    simp only [food_form]
    cases FoodQuantity.try_from s.tui.buf <;> simp [Tui.render_main]
  have hs : (step s (Event.Key KeyCode.Enter)).tui.state = State.Main := by
    rw [step_key_addFood s h]
    simp only [food_form]
    cases FoodQuantity.try_from s.tui.buf <;> simp [Tui.render_main]
  have h2 : ∀ s1 : LoopSt, s1.tui.state = State.Main → s1.tui.buf = s.tui.buf →
      (step s1 (Event.Key (KeyCode.Char 'a'))).tui.buf = s.tui.buf ∧
      (step s1 (Event.Key (KeyCode.Char 'a'))).tui.state = State.AddFood := by
    intro s1 hs1 hb1
    rw [show step s1 (Event.Key (KeyCode.Char 'a')) =
        { s1 with tui := s1.tui.add_food } by
      simp [step, hs1, State.is_add_food]]
    simp [Tui.add_food, hb1]
  obtain ⟨hx, hy⟩ := h2 (step s (Event.Key KeyCode.Enter)) hs hb
  exact ⟨hb, hx, hy⟩

/-- C10 witness: after Enter on the Egg-with-bad-quantity form, every
buffer still holds its text, and the a keystroke re-opens the form with
the same buffers. -/
theorem c10_buffers_survive_witness :
    (formSt c9buf).tui.state = State.AddFood ∧
    ((step (formSt c9buf) (Event.Key KeyCode.Enter)).tui.buf = (formSt c9buf).tui.buf ∧
      (step (step (formSt c9buf) (Event.Key KeyCode.Enter))
          (Event.Key (KeyCode.Char 'a'))).tui.buf = (formSt c9buf).tui.buf ∧
      (step (step (formSt c9buf) (Event.Key KeyCode.Enter))
          (Event.Key (KeyCode.Char 'a'))).tui.state = State.AddFood) :=
  ⟨rfl, c10_buffers_survive_submit_and_reentry (formSt c9buf) rfl⟩
